import Mathlib

/-!
Verification development for the news-ingestion pipeline
(`Pipeline.ipynb`, first code cell).

The pipeline is a straight-line Python script:

* `fetch`    — reads `API_KEY` from the environment, issues one HTTP GET
  against the mediastack endpoint and validates the response envelope,
  raising `SystemExit` on any failure;
* `process`  — turns `result["data"]` into a ten-column tabular batch via
  `pd.DataFrame.from_records(result["data"], columns=columns)`;
* `store`    — appends the batch to the SQLite table `news` inside a
  transaction; on append/commit failure it rolls back and writes the batch
  to a dated CSV backup; the connection is closed in a `finally` block;
* `mainRun`     — fetch, process, store in sequence;
* `run_periodically` — loops `mainRun`, catching only `SystemExit`, and sleeps
  a fixed interval in a `finally` block after every iteration.

The shallow embedding below is a direct translation.  Effects are made
explicit: the environment and the network are inputs of `fetch`, injected
faults of the SQLite layer are an input of `store` (a `FailPoint` saying
which statement of `store` raises, if any), and observable effects
(requests issued, rows committed, backup files written, log lines,
seconds slept) are returned as data.
-/

set_option autoImplicit false

/-- A cell value of the tabular batch: a string, or null
(Python `None`, or pandas `NaN` for a missing key). -/
abbrev Cell := Option String

/-- A raw article record from the API: an ordered mapping of arbitrary
string keys to values, as obtained from the parsed JSON list `data`. -/
abbrev RawRecord := List (String × Cell)

/-- One row of the tabular batch: cell values in schema column order. -/
abbrev Row := List Cell

/-- Source: `columns = ['author', 'title', 'description', 'url', 'source',
'image', 'category', 'language', 'country', 'published_at']`. -/
def columns : List String :=
  ["author", "title", "description", "url", "source", "image", "category",
   "language", "country", "published_at"]

/-- First value bound to key `k` in a raw record, null when the key is
absent.  This is the lookup `pd.DataFrame.from_records` performs per
column: a dict key that is present contributes its value, an absent key
contributes `NaN`. -/
def lookupKey (r : RawRecord) (k : String) : Cell :=
  match r.find? (fun p => p.1 == k) with
  | some p => p.2
  | none => none

/-- Projection of one raw record onto the fixed schema, in column order
(the per-row effect of `pd.DataFrame.from_records(..., columns=columns)`). -/
def normalizeRecord (r : RawRecord) : Row :=
  columns.map (lookupKey r)

/-- The `error` object of a mediastack failure payload (only its
`message` field is read by the script). -/
structure ApiErrorObj where
  message : String
deriving DecidableEq

/-- The parsed JSON body `result`: the `data` field when present, and the
`error` field when present.  `result["data"]` raises `KeyError` when
`data = none`; `"error" in result` is `error.isSome`. -/
structure ResultBody where
  data : Option (List RawRecord)
  error : Option ApiErrorObj
deriving DecidableEq

/-- Python exceptions the script can raise, by kind.  `systemExit` models
`SystemExit` (a `BaseException`, caught by `run_periodically`); `keyError`
models `KeyError` from a dict subscript; `dbError` models an
`sqlite3.Error` escaping `store`. -/
inductive PyError where
  | systemExit (msg : String)
  | keyError (key : String)
  | dbError (msg : String)
deriving DecidableEq

/-- Source: `BASE_URL="http://api.mediastack.com/v1"`. -/
def BASE_URL : String := "http://api.mediastack.com/v1"

/-- Source: `num_articles = 100` inside `fetch`. -/
def num_articles : Nat := 100

/-- The request URL built by `fetch`:
`f"{BASE_URL}/news?access_key={API_KEY}&languages=en&keywords=ai&sort=published_desc&limit={num_articles}"`. -/
def mkUrl (apiKey : String) : String :=
  BASE_URL ++ "/news?access_key=" ++ apiKey ++
    "&languages=en&keywords=ai&sort=published_desc&limit=" ++
    toString num_articles

/-- An HTTP response as `fetch` observes it: status code, reason phrase
and the parsed JSON body. -/
structure HttpResponse where
  status_code : Nat
  reason : String
  body : ResultBody
deriving DecidableEq

/-- The external world of one `fetch` call: the value of
`os.getenv("API_KEY")` (none = variable unset), and the network, which
either raises a `requests.exceptions.RequestException` with the given
message or yields a response. -/
structure FetchEnv where
  apiKey : Option String
  net : Except String HttpResponse

/-- Python truthiness of the key as tested by `if not API_KEY:` —
`None` and the empty string are both falsy. -/
def keyTruthy : Option String → Bool
  | none => false
  | some s => !s.isEmpty

/-- What one `fetch` call did: the URLs it requested, in order, and
either the parsed body or the exception it raised. -/
structure FetchResult where
  requests : List String
  outcome : Except PyError ResultBody

/-- Translation of `fetch()`.  Checks, in source order: key truthiness
(no request on failure), the network call, the HTTP status, and the
API-level `error` field.  Every failure raises `SystemExit`. -/
def fetch (env : FetchEnv) : FetchResult :=
  if keyTruthy env.apiKey then
    let url := mkUrl (env.apiKey.getD "")
    match env.net with
    | Except.error e =>
        { requests := [url], outcome := Except.error (PyError.systemExit e) }
    | Except.ok resp =>
        if resp.status_code = 200 then
          match resp.body.error with
          | some err =>
              { requests := [url],
                outcome := Except.error (PyError.systemExit err.message) }
          | none =>
              { requests := [url], outcome := Except.ok resp.body }
        else
          { requests := [url],
            outcome := Except.error (PyError.systemExit
              ("Error " ++ toString resp.status_code ++ ": " ++ resp.reason)) }
  else
    { requests := [], outcome := Except.error (PyError.systemExit "Missing API Key") }

/-- Translation of `process(result)`: subscripting `result["data"]`
raises `KeyError` when the field is absent; otherwise
`pd.DataFrame.from_records` maps each record onto the schema, preserving
order. -/
def process (result : ResultBody) : Except PyError (List Row) :=
  match result.data with
  | none => Except.error (PyError.keyError "data")
  | some rs => Except.ok (rs.map normalizeRecord)

/-- The SQLite database file: the `news` table (its column list when it
exists) and its committed rows. -/
structure Db where
  table : Option (List String)
  rows : List Row
deriving DecidableEq

/-- A backup CSV file written by `df.to_csv`: its name, its header row
and its data rows. -/
structure Backup where
  fname : String
  header : List String
  rows : List Row
deriving DecidableEq

/-- An open SQLite connection: the durable database state, the rows
staged in the current transaction, and whether the handle is open. -/
structure Conn where
  db : Db
  pending : List Row
  isOpen : Bool
deriving DecidableEq

/-- `CREATE TABLE IF NOT EXISTS news (author TEXT, ..., published_at TEXT)`:
creates the ten-column table when absent, leaves the database untouched
when the table already exists. -/
def createNewsTable (db : Db) : Db :=
  match db.table with
  | some _ => db
  | none => { db with table := some columns }

/-- `conn.execute('BEGIN')`: opens a transaction with nothing staged. -/
def beginTxn (c : Conn) : Conn :=
  { c with pending := [] }

/-- `df.to_sql('news', con=conn, if_exists="append", index=False)`:
stages the given rows in the open transaction. -/
def toSqlAppend (rows : List Row) (c : Conn) : Conn :=
  { c with pending := c.pending ++ rows }

/-- `conn.commit()`: makes the staged rows durable. -/
def commitTxn (c : Conn) : Conn :=
  { c with db := { c.db with rows := c.db.rows ++ c.pending }, pending := [] }

/-- `conn.rollback()`: discards the staged rows. -/
def rollbackTxn (c : Conn) : Conn :=
  { c with pending := [] }

/-- `conn.close()`. -/
def closeConn (c : Conn) : Conn :=
  { c with isOpen := false }

/-- A calendar date, the value of `datetime.now()` as far as
`strftime('%Y_%m_%d')` observes it. -/
structure CalDate where
  year : Nat
  month : Nat
  day : Nat
deriving DecidableEq

/-- Left-pads the decimal form of `n` with zeros to width `w`
(the zero padding of `strftime`). -/
def padZero (w : Nat) (n : Nat) : String :=
  String.mk (List.replicate (w - (toString n).length) '0') ++ toString n

/-- `datetime.now().strftime('%Y_%m_%d')`. -/
def dateStr (d : CalDate) : String :=
  padZero 4 d.year ++ "_" ++ padZero 2 d.month ++ "_" ++ padZero 2 d.day

/-- The backup file name `f"news_{datetime.now().strftime('%Y_%m_%d')}.csv"`. -/
def backupFileName (d : CalDate) : String :=
  "news_" ++ dateStr d ++ ".csv"

/-- Injected fault of the SQLite layer during one `store` call, naming
the statement of `store` that raises.  `atCreate` and `atBegin` are the
two `conn.execute` calls that stand BEFORE the `try` block of the source;
`atAppend staged` is `df.to_sql` raising after staging `staged` rows, and
`atCommit` is `conn.commit()` raising — both of these are inside the
`try` block. -/
inductive FailPoint where
  | ok
  | atCreate (msg : String)
  | atBegin (msg : String)
  | atAppend (staged : Nat)
  | atCommit
deriving DecidableEq

/-- A fail point at which `df.to_sql` or `conn.commit()` raises, i.e. the
transactional write itself fails. -/
def isWriteFailure : FailPoint → Bool
  | FailPoint.atAppend _ => true
  | FailPoint.atCommit => true
  | _ => false

/-- A fail point at which one of the two statements preceding the
`try` block raises. -/
def isPreTryFault : FailPoint → Bool
  | FailPoint.atCreate _ => true
  | FailPoint.atBegin _ => true
  | _ => false

/-- How one `store` call ended: a committed write, the backup path of
the `except` clause, or an exception escaping `store`. -/
inductive StoreOutcome where
  | committed
  | backedUp
  | raised (msg : String)
deriving DecidableEq

/-- What one `store` call did: final database, backup files on disk,
whether `conn.close()` ran, and how the call ended. -/
structure StoreResult where
  db : Db
  backups : List Backup
  connClosed : Bool
  outcome : StoreOutcome
deriving DecidableEq

/-- Translation of `store(df)`.  The source order is: connect; execute
the `CREATE TABLE IF NOT EXISTS`; execute `BEGIN`; then a
`try: to_sql; commit / except Exception: rollback; to_csv / finally:
close`.  A fault at the create or begin statement therefore propagates
without the `finally` running (the connection stays open); a fault at
append or commit is caught, rolled back and recovered by writing the
whole batch to the dated backup CSV. -/
def store (fp : FailPoint) (d : CalDate) (df : List Row) (db : Db)
    (bks : List Backup) : StoreResult :=
  match fp with
  | FailPoint.atCreate m =>
      { db := db, backups := bks, connClosed := false,
        outcome := StoreOutcome.raised m }
  | FailPoint.atBegin m =>
      { db := createNewsTable db, backups := bks, connClosed := false,
        outcome := StoreOutcome.raised m }
  | FailPoint.ok =>
      let c : Conn := { db := createNewsTable db, pending := [], isOpen := true }
      let c := commitTxn (toSqlAppend df (beginTxn c))
      let c := closeConn c
      { db := c.db, backups := bks, connClosed := !c.isOpen,
        outcome := StoreOutcome.committed }
  | FailPoint.atAppend staged =>
      let c : Conn := { db := createNewsTable db, pending := [], isOpen := true }
      let c := rollbackTxn (toSqlAppend (df.take staged) (beginTxn c))
      let c := closeConn c
      { db := c.db,
        backups := bks ++ [{ fname := backupFileName d, header := columns, rows := df }],
        connClosed := !c.isOpen, outcome := StoreOutcome.backedUp }
  | FailPoint.atCommit =>
      let c : Conn := { db := createNewsTable db, pending := [], isOpen := true }
      let c := rollbackTxn (toSqlAppend df (beginTxn c))
      let c := closeConn c
      { db := c.db,
        backups := bks ++ [{ fname := backupFileName d, header := columns, rows := df }],
        connClosed := !c.isOpen, outcome := StoreOutcome.backedUp }

/-- What one `main()` call did: final database and backups, the exception
escaping `mainRun` if any, the HTTP requests issued, and which stages were
reached. -/
structure RunResult where
  db : Db
  backups : List Backup
  raised : Option PyError
  requests : List String
  reachedProcess : Bool
  reachedStore : Bool

/-- Translation of `main()`: `fetch`, then `process`, then `store`; any
exception propagates and aborts the remaining stages. -/
def mainRun (env : FetchEnv) (fp : FailPoint) (d : CalDate) (db : Db)
    (bks : List Backup) : RunResult :=
  let f := fetch env
  match f.outcome with
  | Except.error e =>
      { db := db, backups := bks, raised := some e, requests := f.requests,
        reachedProcess := false, reachedStore := false }
  | Except.ok body =>
      match process body with
      | Except.error e =>
          { db := db, backups := bks, raised := some e, requests := f.requests,
            reachedProcess := true, reachedStore := false }
      | Except.ok df =>
          let r := store fp d df db bks
          match r.outcome with
          | StoreOutcome.raised m =>
              { db := r.db, backups := r.backups,
                raised := some (PyError.dbError m), requests := f.requests,
                reachedProcess := true, reachedStore := true }
          | _ =>
              { db := r.db, backups := r.backups, raised := none,
                requests := f.requests, reachedProcess := true,
                reachedStore := true }

/-- The line printed by the `except SystemExit` clause of
`run_periodically`:
`f'[{curr_time()}] Error: "{e}". Repeating in {interval_seconds} seconds'`. -/
def schedLogMsg (now : String) (msg : String) (interval : Nat) : String :=
  "[" ++ now ++ "] Error: \"" ++ msg ++ "\". Repeating in " ++
    toString interval ++ " seconds"

/-- What one iteration of the `while True` loop of `run_periodically`
did: final database and backups, the lines logged by the scheduler
layer, the seconds slept (the `finally: sleep(interval_seconds)` runs on
every path), and the exception escaping the loop if any (`some e` means
the loop — and the process — terminates). -/
structure LoopStepResult where
  db : Db
  backups : List Backup
  log : List String
  slept : Nat
  crashed : Option PyError

/-- Translation of one iteration of `run_periodically(interval_seconds)`:
`try: mainRun() / except SystemExit as e: print(...) / finally:
sleep(interval_seconds)`.  Only `SystemExit` is caught; any other
exception escapes (after the `finally` sleep) and ends the loop. -/
def run_periodically_step (interval : Nat) (now : String) (env : FetchEnv)
    (fp : FailPoint) (d : CalDate) (db : Db) (bks : List Backup) :
    LoopStepResult :=
  let r := mainRun env fp d db bks
  match r.raised with
  | none =>
      { db := r.db, backups := r.backups, log := [], slept := interval,
        crashed := none }
  | some (PyError.systemExit m) =>
      { db := r.db, backups := r.backups,
        log := [schedLogMsg now m interval], slept := interval,
        crashed := none }
  | some e =>
      { db := r.db, backups := r.backups, log := [], slept := interval,
        crashed := some e }

/-! ## Helper lemmas -/

/-- The idempotent create never touches the committed rows. -/
theorem createNewsTable_rows (db : Db) : (createNewsTable db).rows = db.rows := by
  cases h : db.table <;> simp [createNewsTable, h]

/-- The create is idempotent. -/
theorem createNewsTable_idem (db : Db) :
    createNewsTable (createNewsTable db) = createNewsTable db := by
  cases h : db.table <;> simp [createNewsTable, h]

/-- After the create the `news` table exists. -/
theorem createNewsTable_isSome (db : Db) :
    (createNewsTable db).table.isSome = true := by
  cases h : db.table <;> simp [createNewsTable, h]

/-- The `finally: sleep(interval_seconds)` of the loop runs on every
path: each iteration sleeps exactly the configured interval. -/
theorem run_periodically_step_slept (interval : Nat) (now : String)
    (env : FetchEnv) (fp : FailPoint) (d : CalDate) (db : Db)
    (bks : List Backup) :
    (run_periodically_step interval now env fp d db bks).slept = interval := by
  rcases h : (mainRun env fp d db bks).raised with _ | e
  · simp [run_periodically_step, h]
  · cases e <;> simp [run_periodically_step, h]

/-- A key bound by no pair of the record looks up to null. -/
theorem lookupKey_eq_none (r : RawRecord) (k : String)
    (h : ∀ p, p ∈ r → p.1 ≠ k) : lookupKey r k = none := by
  unfold lookupKey
  rcases hf : r.find? (fun p => p.1 == k) with _ | p
  · rw [hf]
  · exact absurd (by simpa using List.find?_some hf)
      (h p (List.mem_of_find?_eq_some hf))

/-- Dropping the pairs whose key is outside the schema does not change
the lookup of a schema key. -/
theorem lookupKey_filter (r : RawRecord) (k : String) (hk : k ∈ columns) :
    lookupKey (r.filter (fun p => decide (p.1 ∈ columns))) k = lookupKey r k := by
  unfold lookupKey
  rw [List.find?_filter]
  have hfun : (fun (a : String × Cell) =>
        decide (decide (a.1 ∈ columns) = true ∧ (a.1 == k) = true))
      = fun (a : String × Cell) => a.1 == k := by
    funext a
    by_cases h : a.1 = k
    · subst h; simp [hk]
    · simp [h]
  rw [hfun]

/-! ## Claims -/

/-- Claim C1: for every Batch and every store state, if the transactional
append or commit fails inside the Persister, then after the run the
Store row count equals its pre-run row count (the transaction is rolled
back), the entire Batch is written unmodified to the backup file, and
the Persister returns normally with the backed-up outcome rather than
raising. -/
theorem claim_C1 (fp : FailPoint) (d : CalDate) (df : List Row) (db : Db)
    (bks : List Backup) (h : isWriteFailure fp = true) :
    (store fp d df db bks).db.rows.length = db.rows.length ∧
    (store fp d df db bks).backups =
      bks ++ [{ fname := backupFileName d, header := columns, rows := df }] ∧
    (store fp d df db bks).outcome = StoreOutcome.backedUp := by
  cases fp <;> simp_all [store, isWriteFailure, beginTxn, toSqlAppend,
    rollbackTxn, closeConn, createNewsTable_rows]

/-- Concrete instantiation of the C1 theorem: a forced commit failure on
an empty store with a one-row batch. -/
theorem claim_C1_witness :
    isWriteFailure FailPoint.atCommit = true ∧
    ((store FailPoint.atCommit ⟨2025, 2, 9⟩ [[some "a"]] ⟨none, []⟩ []).db.rows.length
        = (Db.mk none []).rows.length ∧
      (store FailPoint.atCommit ⟨2025, 2, 9⟩ [[some "a"]] ⟨none, []⟩ []).backups =
        [] ++ [{ fname := backupFileName ⟨2025, 2, 9⟩, header := columns,
                 rows := [[some "a"]] }] ∧
      (store FailPoint.atCommit ⟨2025, 2, 9⟩ [[some "a"]] ⟨none, []⟩ []).outcome
        = StoreOutcome.backedUp) :=
  ⟨rfl, claim_C1 FailPoint.atCommit ⟨2025, 2, 9⟩ [[some "a"]] ⟨none, []⟩ [] rfl⟩

/-- Claim C2: when the credential lookup yields no API key, `fetch`
raises the configuration error (`SystemExit` with the missing-key
message) and issues no HTTP request at all. -/
theorem claim_C2 (env : FetchEnv) (h : env.apiKey = none) :
    (fetch env).outcome = Except.error (PyError.systemExit "Missing API Key") ∧
    (fetch env).requests = [] := by
  simp [fetch, keyTruthy, h]

/-- Concrete instantiation of the C2 theorem: an unset key with the
network down. -/
theorem claim_C2_witness :
    (FetchEnv.mk none (Except.error "net down")).apiKey = none ∧
    ((fetch (FetchEnv.mk none (Except.error "net down"))).outcome =
        Except.error (PyError.systemExit "Missing API Key") ∧
      (fetch (FetchEnv.mk none (Except.error "net down"))).requests = []) :=
  ⟨rfl, claim_C2 (FetchEnv.mk none (Except.error "net down")) rfl⟩

/-- Claim C7: a backup file is produced by `store` exactly when the
transactional write fails; it is then named `news_<YYYY>_<MM>_<DD>.csv`
for the run date and holds the schema header followed by the failed
Batch rows; on a successful commit (and on a fault outside the
transactional write) no backup is written. -/
theorem claim_C7 (fp : FailPoint) (d : CalDate) (df : List Row) (db : Db)
    (bks : List Backup) :
    (store fp d df db bks).backups =
      (if isWriteFailure fp = true then
        bks ++ [{ fname := "news_" ++ dateStr d ++ ".csv", header := columns,
                  rows := df }]
      else bks) ∧
    backupFileName d = "news_" ++ dateStr d ++ ".csv" := by
  cases fp <;> simp [store, isWriteFailure, backupFileName]

/-- Claim C9: an API key that is present in the environment but empty is
treated exactly like an absent key — `fetch` behaves identically, raises
the configuration error and issues no request.  This is the Python
truthiness test `if not API_KEY:`. -/
theorem claim_C9 (env : FetchEnv) (h : env.apiKey = some "") :
    fetch env = fetch { apiKey := none, net := env.net } ∧
    (fetch env).outcome = Except.error (PyError.systemExit "Missing API Key") ∧
    (fetch env).requests = [] := by
  have he : "".isEmpty = true := rfl
  simp [fetch, keyTruthy, h, he]

/-- Concrete instantiation of the C9 theorem: an empty key in the
environment. -/
theorem claim_C9_witness :
    (FetchEnv.mk (some "") (Except.error "net down")).apiKey = some "" ∧
    (fetch (FetchEnv.mk (some "") (Except.error "net down")) =
        fetch { apiKey := none, net := (FetchEnv.mk (some "") (Except.error "net down")).net } ∧
      (fetch (FetchEnv.mk (some "") (Except.error "net down"))).outcome =
        Except.error (PyError.systemExit "Missing API Key") ∧
      (fetch (FetchEnv.mk (some "") (Except.error "net down"))).requests = []) :=
  ⟨rfl, claim_C9 (FetchEnv.mk (some "") (Except.error "net down")) rfl⟩

/-- Claim C4: on an HTTP response with a status other than 200, `fetch`
raises the protocol error carrying the status code and reason text, and
the run stops there — the Normalizer is never reached and the database
and backups are untouched. -/
theorem claim_C4 (env : FetchEnv) (resp : HttpResponse) (fp : FailPoint)
    (d : CalDate) (db : Db) (bks : List Backup)
    (hk : keyTruthy env.apiKey = true) (hn : env.net = Except.ok resp)
    (hs : resp.status_code ≠ 200) :
    (fetch env).outcome = Except.error (PyError.systemExit
      ("Error " ++ toString resp.status_code ++ ": " ++ resp.reason)) ∧
    (mainRun env fp d db bks).reachedProcess = false ∧
    (mainRun env fp d db bks).db = db ∧
    (mainRun env fp d db bks).backups = bks := by
  have hf : (fetch env).outcome = Except.error (PyError.systemExit
      ("Error " ++ toString resp.status_code ++ ": " ++ resp.reason)) := by
    simp [fetch, hk, hn, hs]
  exact ⟨hf, by simp [mainRun, hf], by simp [mainRun, hf], by simp [mainRun, hf]⟩

/-- Concrete instantiation of the C4 theorem: a 429 response. -/
theorem claim_C4_witness :
    keyTruthy (FetchEnv.mk (some "k")
        (Except.ok (HttpResponse.mk 429 "Too Many Requests"
          (ResultBody.mk none none)))).apiKey = true ∧
    (FetchEnv.mk (some "k")
        (Except.ok (HttpResponse.mk 429 "Too Many Requests"
          (ResultBody.mk none none)))).net =
      Except.ok (HttpResponse.mk 429 "Too Many Requests" (ResultBody.mk none none)) ∧
    (429 : Nat) ≠ 200 ∧
    ((fetch (FetchEnv.mk (some "k")
        (Except.ok (HttpResponse.mk 429 "Too Many Requests"
          (ResultBody.mk none none))))).outcome =
      Except.error (PyError.systemExit
        ("Error " ++ toString (429 : Nat) ++ ": " ++ "Too Many Requests")) ∧
    (mainRun (FetchEnv.mk (some "k")
        (Except.ok (HttpResponse.mk 429 "Too Many Requests"
          (ResultBody.mk none none)))) FailPoint.ok ⟨2025, 2, 9⟩
        (Db.mk none []) []).reachedProcess = false ∧
    (mainRun (FetchEnv.mk (some "k")
        (Except.ok (HttpResponse.mk 429 "Too Many Requests"
          (ResultBody.mk none none)))) FailPoint.ok ⟨2025, 2, 9⟩
        (Db.mk none []) []).db = Db.mk none [] ∧
    (mainRun (FetchEnv.mk (some "k")
        (Except.ok (HttpResponse.mk 429 "Too Many Requests"
          (ResultBody.mk none none)))) FailPoint.ok ⟨2025, 2, 9⟩
        (Db.mk none []) []).backups = []) :=
  ⟨rfl, rfl, by decide,
    claim_C4 (FetchEnv.mk (some "k")
      (Except.ok (HttpResponse.mk 429 "Too Many Requests" (ResultBody.mk none none))))
      (HttpResponse.mk 429 "Too Many Requests" (ResultBody.mk none none))
      FailPoint.ok ⟨2025, 2, 9⟩ (Db.mk none []) [] rfl rfl (by decide)⟩

/-- Claim C5: in loop mode every `SystemExit` raised by the Fetcher is
caught by the Scheduler, logged with its message and the current
timestamp, and the loop continues (no crash); the database and backups
are untouched by such a run, and the fixed sleep interval elapses after
every run identically, whatever its outcome. -/
theorem claim_C5 (interval : Nat) (now : String) (env : FetchEnv)
    (fp : FailPoint) (d : CalDate) (db : Db) (bks : List Backup) (m : String)
    (h : (fetch env).outcome = Except.error (PyError.systemExit m)) :
    (run_periodically_step interval now env fp d db bks).crashed = none ∧
    (run_periodically_step interval now env fp d db bks).log =
      [schedLogMsg now m interval] ∧
    (run_periodically_step interval now env fp d db bks).db = db ∧
    (run_periodically_step interval now env fp d db bks).backups = bks ∧
    (∀ (env2 : FetchEnv) (fp2 : FailPoint) (db2 : Db) (bks2 : List Backup),
      (run_periodically_step interval now env2 fp2 d db2 bks2).slept = interval) := by
  have hm : mainRun env fp d db bks =
      { db := db, backups := bks, raised := some (PyError.systemExit m),
        requests := (fetch env).requests, reachedProcess := false,
        reachedStore := false } := by
    simp [mainRun, h]
  exact ⟨by simp [run_periodically_step, hm], by simp [run_periodically_step, hm],
    by simp [run_periodically_step, hm], by simp [run_periodically_step, hm],
    fun env2 fp2 db2 bks2 => run_periodically_step_slept interval now env2 fp2 d db2 bks2⟩

/-- Concrete instantiation of the C5 theorem: a run with the key unset. -/
theorem claim_C5_witness :
    (fetch (FetchEnv.mk none (Except.error "net down"))).outcome =
      Except.error (PyError.systemExit "Missing API Key") ∧
    ((run_periodically_step 86400 "2025-02-09 22:55:22"
        (FetchEnv.mk none (Except.error "net down")) FailPoint.ok ⟨2025, 2, 9⟩
        (Db.mk none []) []).crashed = none ∧
      (run_periodically_step 86400 "2025-02-09 22:55:22"
        (FetchEnv.mk none (Except.error "net down")) FailPoint.ok ⟨2025, 2, 9⟩
        (Db.mk none []) []).log =
        [schedLogMsg "2025-02-09 22:55:22" "Missing API Key" 86400] ∧
      (run_periodically_step 86400 "2025-02-09 22:55:22"
        (FetchEnv.mk none (Except.error "net down")) FailPoint.ok ⟨2025, 2, 9⟩
        (Db.mk none []) []).db = Db.mk none [] ∧
      (run_periodically_step 86400 "2025-02-09 22:55:22"
        (FetchEnv.mk none (Except.error "net down")) FailPoint.ok ⟨2025, 2, 9⟩
        (Db.mk none []) []).backups = [] ∧
      (∀ (env2 : FetchEnv) (fp2 : FailPoint) (db2 : Db) (bks2 : List Backup),
        (run_periodically_step 86400 "2025-02-09 22:55:22" env2 fp2 ⟨2025, 2, 9⟩
          db2 bks2).slept = 86400)) :=
  ⟨rfl, claim_C5 86400 "2025-02-09 22:55:22"
    (FetchEnv.mk none (Except.error "net down")) FailPoint.ok ⟨2025, 2, 9⟩
    (Db.mk none []) [] "Missing API Key" rfl⟩

/-- Claim C10: when a fetch succeeds but the body lacks the `data`
field, `process` raises a `KeyError`, which is not a `SystemExit`; the
loop of `run_periodically` catches only `SystemExit`, so the error
escapes unlogged and ends the loop (the `finally` sleep still runs
once before it propagates). -/
theorem claim_C10 (interval : Nat) (now : String) (env : FetchEnv)
    (fp : FailPoint) (d : CalDate) (db : Db) (bks : List Backup)
    (body : ResultBody) (hf : (fetch env).outcome = Except.ok body)
    (hd : body.data = none) :
    process body = Except.error (PyError.keyError "data") ∧
    (∀ m, PyError.keyError "data" ≠ PyError.systemExit m) ∧
    (run_periodically_step interval now env fp d db bks).crashed =
      some (PyError.keyError "data") ∧
    (run_periodically_step interval now env fp d db bks).log = [] ∧
    (run_periodically_step interval now env fp d db bks).slept = interval := by
  have hp : process body = Except.error (PyError.keyError "data") := by
    simp [process, hd]
  have hm : mainRun env fp d db bks =
      { db := db, backups := bks, raised := some (PyError.keyError "data"),
        requests := (fetch env).requests, reachedProcess := true,
        reachedStore := false } := by
    simp [mainRun, hf, hp]
  exact ⟨hp, by intro m; simp, by simp [run_periodically_step, hm],
    by simp [run_periodically_step, hm], by simp [run_periodically_step, hm]⟩

/-- Concrete instantiation of the C10 theorem: a 200 response whose body
has neither `data` nor `error`. -/
theorem claim_C10_witness :
    (fetch (FetchEnv.mk (some "k")
        (Except.ok (HttpResponse.mk 200 "OK" (ResultBody.mk none none))))).outcome =
      Except.ok (ResultBody.mk none none) ∧
    (ResultBody.mk none none).data = none ∧
    (process (ResultBody.mk none none) =
        Except.error (PyError.keyError "data") ∧
      (∀ m, PyError.keyError "data" ≠ PyError.systemExit m) ∧
      (run_periodically_step 86400 "2025-02-09 22:55:22"
        (FetchEnv.mk (some "k")
          (Except.ok (HttpResponse.mk 200 "OK" (ResultBody.mk none none))))
        FailPoint.ok ⟨2025, 2, 9⟩ (Db.mk none []) []).crashed =
        some (PyError.keyError "data") ∧
      (run_periodically_step 86400 "2025-02-09 22:55:22"
        (FetchEnv.mk (some "k")
          (Except.ok (HttpResponse.mk 200 "OK" (ResultBody.mk none none))))
        FailPoint.ok ⟨2025, 2, 9⟩ (Db.mk none []) []).log = [] ∧
      (run_periodically_step 86400 "2025-02-09 22:55:22"
        (FetchEnv.mk (some "k")
          (Except.ok (HttpResponse.mk 200 "OK" (ResultBody.mk none none))))
        FailPoint.ok ⟨2025, 2, 9⟩ (Db.mk none []) []).slept = 86400) :=
  ⟨rfl, rfl, claim_C10 86400 "2025-02-09 22:55:22"
    (FetchEnv.mk (some "k")
      (Except.ok (HttpResponse.mk 200 "OK" (ResultBody.mk none none))))
    FailPoint.ok ⟨2025, 2, 9⟩ (Db.mk none []) [] (ResultBody.mk none none) rfl rfl⟩

/-- Claim C3: for every well-formed response body whose record list has
N entries, the Normalizer yields a Batch of exactly N rows, row i coming
from input record i (original order preserved); every row has exactly
the ten schema fields in the fixed column order, a key absent from the
input record maps to null, and keys outside the ten-column schema never
influence the output (they are dropped).  `process` is embedded as a
pure function of the body alone, so the Normalizer does no I/O and is
deterministic. -/
theorem claim_C3 (body : ResultBody) (rs : List RawRecord)
    (h : body.data = some rs) :
    process body = Except.ok (rs.map normalizeRecord) ∧
    (rs.map normalizeRecord).length = rs.length ∧
    (∀ (i : Nat), (rs.map normalizeRecord)[i]? = (rs[i]?).map normalizeRecord) ∧
    (∀ (r : RawRecord), (normalizeRecord r).length = columns.length) ∧
    (∀ (r : RawRecord) (i : Nat),
      (normalizeRecord r)[i]? = (columns[i]?).map (lookupKey r)) ∧
    (∀ (r : RawRecord) (k : String), (∀ p, p ∈ r → p.1 ≠ k) →
      lookupKey r k = none) ∧
    (∀ (r : RawRecord) (k : String), k ∈ columns →
      lookupKey (r.filter (fun p => decide (p.1 ∈ columns))) k = lookupKey r k) := by
  refine ⟨by simp [process, h], by simp, ?_, ?_, ?_, lookupKey_eq_none,
    lookupKey_filter⟩
  · intro i; simp
  · intro r; simp [normalizeRecord]
  · intro r i; simp [normalizeRecord]

/-- Concrete instantiation of the C3 theorem: one record carrying a
schema key and a key outside the schema. -/
theorem claim_C3_witness :
    (ResultBody.mk (some [[("title", some "t"), ("junk", some "x")]]) none).data =
      some [[("title", some "t"), ("junk", some "x")]] ∧
    (process (ResultBody.mk (some [[("title", some "t"), ("junk", some "x")]]) none) =
        Except.ok ([[("title", some "t"), ("junk", some "x")]].map normalizeRecord) ∧
      ([[("title", some "t"), ("junk", some "x")]].map normalizeRecord).length =
        [[("title", some "t"), ("junk", some "x")]].length ∧
      (∀ (i : Nat),
        (([[("title", some "t"), ("junk", some "x")]] : List RawRecord).map
            normalizeRecord)[i]? =
          (([[("title", some "t"), ("junk", some "x")]] : List RawRecord)[i]?).map
            normalizeRecord) ∧
      (∀ (r : RawRecord), (normalizeRecord r).length = columns.length) ∧
      (∀ (r : RawRecord) (i : Nat),
        (normalizeRecord r)[i]? = (columns[i]?).map (lookupKey r)) ∧
      (∀ (r : RawRecord) (k : String), (∀ p, p ∈ r → p.1 ≠ k) →
        lookupKey r k = none) ∧
      (∀ (r : RawRecord) (k : String), k ∈ columns →
        lookupKey (r.filter (fun p => decide (p.1 ∈ columns))) k = lookupKey r k)) :=
  ⟨rfl, claim_C3
    (ResultBody.mk (some [[("title", some "t"), ("junk", some "x")]]) none)
    [[("title", some "t"), ("junk", some "x")]] rfl⟩

/-- The URL `fetch` builds, written as one template. -/
theorem mkUrl_eq (k : String) :
    mkUrl k = "http://api.mediastack.com/v1/news?access_key=" ++ k ++
      "&languages=en&keywords=ai&sort=published_desc&limit=100" := by
  unfold mkUrl BASE_URL num_articles
  rw [String.append_assoc]
  rfl

/-- Counterexample to claim C6 as stated: the API key can be present in
the environment (`os.getenv` yields a value) while being the empty
string, and then `fetch` issues no request at all — the truthiness test
`if not API_KEY:` rejects the empty string — so the run does not issue
exactly one GET. -/
theorem claim_C6_counterexample :
    (FetchEnv.mk (some "") (Except.error "net down")).apiKey = some "" ∧
    (fetch (FetchEnv.mk (some "") (Except.error "net down"))).requests = [] ∧
    (fetch (FetchEnv.mk (some "") (Except.error "net down"))).requests.length ≠ 1 := by
  refine ⟨rfl, rfl, ?_⟩
  decide

/-- Claim C6 amended: on every run whose API key is present and
non-empty, `fetch` issues exactly one HTTP GET request — whatever the
network does afterwards, so there is no internal retry — and its URL is
`<base-url>/news` with query parameters `access_key=<key>`,
`languages=en`, `keywords=ai`, `sort=published_desc` and `limit=100`. -/
theorem claim_C6_amended (env : FetchEnv) (k : String)
    (hk : env.apiKey = some k) (hne : k ≠ "") :
    (fetch env).requests = [mkUrl k] ∧
    mkUrl k = "http://api.mediastack.com/v1/news?access_key=" ++ k ++
      "&languages=en&keywords=ai&sort=published_desc&limit=100" := by
  have hke : k.isEmpty = false := by
    cases hb : k.isEmpty
    · rfl
    · exact absurd ((String.isEmpty_iff k).mp hb) hne
  have ht : keyTruthy (some k) = true := by simp [keyTruthy, hke]
  refine ⟨?_, mkUrl_eq k⟩
  rcases hnet : env.net with e | resp
  · simp [fetch, ht, hk, hnet]
  · by_cases hs : resp.status_code = 200
    · rcases herr : resp.body.error with _ | err
      · simp [fetch, ht, hk, hnet, hs, herr]
      · simp [fetch, ht, hk, hnet, hs, herr]
    · simp [fetch, ht, hk, hnet, hs]

/-- Concrete instantiation of the amended C6 theorem: a non-empty key
over a failing network still issues exactly one request. -/
theorem claim_C6_amended_witness :
    (FetchEnv.mk (some "k") (Except.error "net down")).apiKey = some "k" ∧
    ("k" : String) ≠ "" ∧
    ((fetch (FetchEnv.mk (some "k") (Except.error "net down"))).requests =
        [mkUrl "k"] ∧
      mkUrl "k" = "http://api.mediastack.com/v1/news?access_key=" ++ "k" ++
        "&languages=en&keywords=ai&sort=published_desc&limit=100") :=
  ⟨rfl, by decide,
    claim_C6_amended (FetchEnv.mk (some "k") (Except.error "net down")) "k"
      rfl (by decide)⟩

/-- Counterexample to claim C8 as stated: the `CREATE TABLE` statement
is executed before the `try/finally` of `store`, so a database fault at
that statement (for instance a corrupt database file) propagates without
`conn.close()` ever running — the connection is not released, and on a
fresh database the `news` table does not exist after the call. -/
theorem claim_C8_counterexample :
    (store (FailPoint.atCreate "database disk image is malformed")
        ⟨2025, 2, 9⟩ [] (Db.mk none []) []).connClosed = false ∧
    (store (FailPoint.atCreate "database disk image is malformed")
        ⟨2025, 2, 9⟩ [] (Db.mk none []) []).db.table = none ∧
    (store (FailPoint.atCreate "database disk image is malformed")
        ⟨2025, 2, 9⟩ [] (Db.mk none []) []).outcome =
      StoreOutcome.raised "database disk image is malformed" :=
  ⟨rfl, rfl, rfl⟩

/-- Claim C8 amended: on every invocation of `store` that does not fault
at the two statements preceding the `try` block (`CREATE TABLE` and
`BEGIN`), the connection is released on every exit path — successful
commit or persistence failure recovered via backup — and the ten-column
`news` table exists after the call, created idempotently beforehand when
absent; a fault at those two leading statements instead propagates with
the connection left open. -/
theorem claim_C8_amended (fp : FailPoint) (d : CalDate) (df : List Row)
    (db : Db) (bks : List Backup) (h : isPreTryFault fp = false) :
    (store fp d df db bks).connClosed = true ∧
    (store fp d df db bks).db.table.isSome = true ∧
    (db.table = none → (store fp d df db bks).db.table = some columns) ∧
    createNewsTable (createNewsTable db) = createNewsTable db := by
  have htab : db.table = none → (createNewsTable db).table = some columns := by
    intro hx; simp [createNewsTable, hx]
  cases fp <;> simp_all [store, isPreTryFault, beginTxn, toSqlAppend,
    rollbackTxn, commitTxn, closeConn, createNewsTable_isSome,
    createNewsTable_idem]

/-- Concrete instantiation of the amended C8 theorem: a clean run on a
fresh database. -/
theorem claim_C8_amended_witness :
    isPreTryFault FailPoint.ok = false ∧
    ((store FailPoint.ok ⟨2025, 2, 9⟩ [[some "a"]] (Db.mk none []) []).connClosed
        = true ∧
      (store FailPoint.ok ⟨2025, 2, 9⟩ [[some "a"]] (Db.mk none []) []).db.table.isSome
        = true ∧
      ((Db.mk none []).table = none →
        (store FailPoint.ok ⟨2025, 2, 9⟩ [[some "a"]] (Db.mk none []) []).db.table
          = some columns) ∧
      createNewsTable (createNewsTable (Db.mk none [])) =
        createNewsTable (Db.mk none [])) :=
  ⟨rfl, claim_C8_amended FailPoint.ok ⟨2025, 2, 9⟩ [[some "a"]]
    (Db.mk none []) [] rfl⟩
